import Mathlib

/-!
# Verification of the PyNovaGE pygame-like shim

Shallow embedding of `python_bindings/pynovage/pygame_like.py` together with
the value objects it uses (`color.py`, `rect.py`, `surface.py`).

Modelling conventions:

* Python `float` values are modelled as exact rationals (`ℚ`); the circle
  outline code, which calls `math.cos`/`math.sin`/`math.pi`, is modelled with
  those three taken as parameters (any IEEE double result is a rational, so
  the parametric form covers the actual behaviour), and separately over `ℝ`
  with exact trigonometry for the coordinate-geometry claims.
* Calls made into the external renderer (`pynovage_core.renderer`, the batch
  renderer obtained from `pynovage.renderer.get_batch_renderer()`, and the
  window's `swap_buffers`) are recorded as an emitted event list `List REvent`
  in source order; the renderer itself is out of scope (spec §1, §6).
* The module-level globals of `pygame_like.py` that the modelled operations
  read or write (`_window`, `_screen_surface`, `_screen_size`,
  `_batch_started`) are gathered in a state record `RState`, together with
  `brAvailable` (whether `get_batch_renderer()` returns an object) and
  `brOpen`, an instrumentation counter equal to the number of `begin_batch`
  calls minus the number of `end_batch` calls issued to the batch renderer.
* Python object identity of surfaces (the comparison
  `surface == _screen_surface`; `Surface` defines no `__eq__`, so `==` is
  identity) is modelled by an identity tag `sid : ℕ` on each surface.
-/

/-- A normalized RGBA colour, as passed to the batch renderer
(`Color.to_vector4f` in `color.py`). -/
abbrev Col : Type := ℚ × ℚ × ℚ × ℚ

/-- Clamping step of `Color.__init__` (`color.py` lines 59–63): each component is clamped to
`[0, 255]` after construction. -/
def clamp255 (v : ℤ) : ℤ := max 0 (min 255 v)

/-- A `Color` instance of `color.py`. Every instance has passed through
`__init__` (and `__setitem__` also clamps), so the fields are stored
already clamped: `mkPyColor` is the only constructor used by the model. -/
structure PyColor where
  r : ℤ
  g : ℤ
  b : ℤ
  a : ℤ
  deriving DecidableEq, Repr

/-- Embedding of `Color.__init__` with explicit integer components (the clamping step of
lines 59–63 applied to each field). -/
def mkPyColor (r g b a : ℤ) : PyColor :=
  ⟨clamp255 r, clamp255 g, clamp255 b, clamp255 a⟩

/-- Embedding of `Color.to_vector4f` (`color.py` lines 65–72): divide each component by
255 to obtain a normalized `Vector4f`. -/
def toVector4f (c : PyColor) : Col :=
  ((c.r : ℚ) / 255, (c.g : ℚ) / 255, (c.b : ℚ) / 255, (c.a : ℚ) / 255)

/-- The colour arguments accepted by the draw functions: an existing `Color`
instance (recorded by its constructor arguments, since every instance is
built by `__init__`), a 3-tuple/list, or a 4-tuple/list of integers.
Tuples of any other length make `Color.__init__` raise `ValueError`; they
are outside the modelled input space. -/
inductive ColorInput where
  | col  (r g b a : ℤ) : ColorInput
  | rgb3 (r g b : ℤ) : ColorInput
  | rgb4 (r g b a : ℤ) : ColorInput
  deriving DecidableEq, Repr

/-- The coercion `if not isinstance(color, Color): color = Color(color)`
performed at the top of each draw function, combined with
`Color.__init__`: a 3-tuple takes the default alpha `a=255`. -/
def toColor : ColorInput → PyColor
  | .col r g b a  => mkPyColor r g b a
  | .rgb3 r g b   => mkPyColor r g b 255
  | .rgb4 r g b a => mkPyColor r g b a

/-- A `Rect` instance of `rect.py`: position and size, stored as floats
(modelled as `ℚ`). -/
structure PyRect where
  x : ℚ
  y : ℚ
  width : ℚ
  height : ℚ
  deriving DecidableEq, Repr

/-- The rectangle arguments accepted by `draw_rect`: a `Rect` instance or a
4-tuple `(x, y, width, height)`.  Tuples of other lengths make
`Rect.__init__` raise `ValueError`; they are outside the modelled input
space. -/
inductive RectInput where
  | rect (r : PyRect) : RectInput
  | tup (x y w h : ℚ) : RectInput
  deriving DecidableEq, Repr

/-- Coercion `if not isinstance(rect, Rect): rect = Rect(rect)` combined
with `Rect.__init__` (`rect.py`). -/
def toRect : RectInput → PyRect
  | .rect r => r
  | .tup x y w h => ⟨x, y, w, h⟩

/-- A `Surface` instance of `surface.py`: python object identity `sid` plus
its pixel size.  The class defines no `__eq__`, so `==` on surfaces is
identity comparison. -/
structure PySurface where
  sid : ℕ
  width : ℚ
  height : ℚ
  deriving DecidableEq, Repr

/-- Check `hasattr(surface, 'fill_rect')` for a `Surface` instance: the `Surface`
class of `surface.py` defines no attribute named `fill_rect`, so the check
is always false. -/
def hasFillRect (_ : PySurface) : Bool := false

/-- The calls issued to the external renderer / batch renderer / window, in
source order.  The `append*` events record the exact argument values passed
to `add_rect_screen` / `add_line_screen` / `add_circle_screen` (coordinates,
thickness, the `int(screen_w)`/`int(screen_h)` viewport arguments, and the
normalized colour); `surfaceFillRect` records a call into an offscreen
surface object (never emitted, since `hasFillRect` is false). -/
inductive REvent where
  | setViewport (w h : ℚ) : REvent
  | beginFrame : REvent
  | endFrame : REvent
  | swapBuffers : REvent
  | beginBatch : REvent
  | endBatch : REvent
  | flushBatch : REvent
  | appendRect (x y w h : ℚ) (sw sh : ℚ) (c : Col) : REvent
  | appendLine (x0 y0 x1 y1 t : ℚ) (sw sh : ℚ) (c : Col) : REvent
  | appendCircle (x y r : ℚ) (sw sh : ℚ) (c : Col) (segments : ℕ) : REvent
  | surfaceFillRect (sid : ℕ) : REvent
  deriving DecidableEq, Repr

/-- The colour argument carried by an append event, if any. -/
def eventColor : REvent → Option Col
  | .appendRect _ _ _ _ _ _ c => some c
  | .appendLine _ _ _ _ _ _ _ c => some c
  | .appendCircle _ _ _ _ _ c _ => some c
  | _ => none

/-- The module-level globals of `pygame_like.py` relevant to the modelled
operations, plus the renderer-side instrumentation `brOpen`. -/
structure RState where
  /-- Whether `_window is not None`. -/
  windowOpen : Bool
  /-- whether `pynovage.renderer.get_batch_renderer()` returns an object. -/
  brAvailable : Bool
  /-- the global `_batch_started`. -/
  batchStarted : Bool
  /-- number of `begin_batch` minus `end_batch` calls issued so far. -/
  brOpen : ℕ
  /-- identity of `_screen_surface` (`none` = Python `None`). -/
  screenSid : Option ℕ
  /-- Value of `_screen_size[0]` (framebuffer width). -/
  screenW : ℚ
  /-- Value of `_screen_size[1]` (framebuffer height). -/
  screenH : ℚ
  deriving DecidableEq, Repr

/-- The state at import time: all globals `None`/`False`/`(0, 0)`. -/
def initState : RState :=
  { windowOpen := false, brAvailable := false, batchStarted := false,
    brOpen := 0, screenSid := none, screenW := 0, screenH := 0 }

/-- Comparison `surface == _screen_surface` (identity comparison; false whenever
`_screen_surface` is `None`). -/
def isScreen (s : RState) (surf : PySurface) : Bool :=
  s.screenSid = some surf.sid

/-- Embedding of `display_set_mode` (`pygame_like.py` lines 97–160),
success path: the
window system is initialized and window/renderer creation succeed (otherwise
the function raises `RuntimeError`, spec error class (c)).  `w`/`h` is the
resulting framebuffer size stored in `_screen_size`; `brAvail` is whether
`get_batch_renderer()` returns an object at line 155.  The new screen
surface is given identity tag `0`.  Renderer calls made, in order:
`set_viewport`, `begin_frame`, then (if the batch renderer is available)
`begin_batch`, setting `_batch_started = True`. -/
def display_set_mode (s : RState) (w h : ℚ) (brAvail : Bool) :
    RState × List REvent :=
  let s1 : RState :=
    { s with windowOpen := true, brAvailable := brAvail,
             screenSid := some 0, screenW := w, screenH := h }
  if brAvail then
    ({ s1 with batchStarted := true, brOpen := s1.brOpen + 1 },
     [.setViewport w h, .beginFrame, .beginBatch])
  else
    (s1, [.setViewport w h, .beginFrame])

/-- Embedding of `display_flip` (`pygame_like.py` lines 162–182).  Body guarded by
`if _window:`.  First, if the batch renderer is available and
`_batch_started`, it calls `end_batch` and `flush_batch` and clears
`_batch_started`; then `end_frame` and `swap_buffers`; then `begin_frame`,
and if the batch renderer is available, `begin_batch`, setting
`_batch_started = True`. -/
def display_flip (s : RState) : RState × List REvent :=
  if s.windowOpen then
    let p1 : RState × List REvent :=
      if s.brAvailable && s.batchStarted then
        ({ s with batchStarted := false, brOpen := s.brOpen - 1 },
         [.endBatch, .flushBatch])
      else (s, [])
    let p3 : RState × List REvent :=
      if s.brAvailable then
        ({ p1.1 with batchStarted := true, brOpen := p1.1.brOpen + 1 },
         [.beginBatch])
      else (p1.1, [])
    (p3.1, p1.2 ++ [.endFrame, .swapBuffers, .beginFrame] ++ p3.2)
  else (s, [])

/-- The inline coordinate map of `draw_line` (`pygame_like.py` lines
318–320): `y0 = float(screen_h) - y0` — screen space (top-left origin,
Y down) to render space (bottom-left origin, Y up).  X is unchanged. -/
def mapPt (hscr : ℚ) (p : ℚ × ℚ) : ℚ × ℚ := (p.1, hscr - p.2)

/-- Renderer calls emitted by `draw_rect` (`pygame_like.py` lines 250–293).
On the screen surface with the batch renderer present: the rectangle origin
is converted to bottom-left-origin coordinates (`x = rect.x`,
`y = screen_h - rect.y - rect.height`, lines 274–275); `width <= 0` emits a
single `add_rect_screen`, otherwise four `add_line_screen` calls (Top,
Bottom, Left, Right, lines 282–289).  Off the screen surface the code only
calls `surface.fill_rect` when that attribute exists, which `Surface` never
defines. -/
def drawRectEvents (s : RState) (surf : PySurface) (cin : ColorInput)
    (rin : RectInput) (width : ℚ) : List REvent :=
  let color := toVector4f (toColor cin)
  let rect := toRect rin
  if isScreen s surf then
    if !s.brAvailable then []
    else
      let x := rect.x
      let y := s.screenH - rect.y - rect.height
      if width ≤ 0 then
        [.appendRect x y rect.width rect.height s.screenW s.screenH color]
      else
        let t := width
        [.appendLine x (y + rect.height) (x + rect.width) (y + rect.height) t
           s.screenW s.screenH color,
         .appendLine x y (x + rect.width) y t s.screenW s.screenH color,
         .appendLine x y x (y + rect.height) t s.screenW s.screenH color,
         .appendLine (x + rect.width) y (x + rect.width) (y + rect.height) t
           s.screenW s.screenH color]
  else
    if hasFillRect surf then [.surfaceFillRect surf.sid] else []

/-- Renderer calls emitted by `draw_line` (`pygame_like.py` lines 296–324):
one `add_line_screen` with both endpoint Y coordinates flipped and thickness
`max(1, width)`; a no-op off the screen surface. -/
def drawLineEvents (s : RState) (surf : PySurface) (cin : ColorInput)
    (p0 p1 : ℚ × ℚ) (width : ℚ) : List REvent :=
  let color := toVector4f (toColor cin)
  if isScreen s surf then
    if !s.brAvailable then []
    else
      [.appendLine p0.1 (s.screenH - p0.2) p1.1 (s.screenH - p1.2)
         (max 1 width) s.screenW s.screenH color]
  else []

/-- Renderer calls emitted by `draw_polygon` (`pygame_like.py` lines
326–359): on the screen surface with a nonempty point list, one
`add_line_screen` per point connecting it to its successor (wrapping
last→first via the index `(i + 1) % len(pts)`), each endpoint Y-flipped,
thickness `1` when `width <= 0` and `width` otherwise.  The
successor-with-wraparound pairing is expressed as `pts.zip (pts.rotate 1)`.
A no-op otherwise. -/
def drawPolygonEvents (s : RState) (surf : PySurface) (cin : ColorInput)
    (pts : List (ℚ × ℚ)) (width : ℚ) : List REvent :=
  let color := toVector4f (toColor cin)
  if isScreen s surf ∧ pts ≠ [] then
    if !s.brAvailable then []
    else
      let w := if width ≤ 0 then 1 else width
      (pts.zip (pts.rotate 1)).map fun pq =>
        .appendLine pq.1.1 (s.screenH - pq.1.2) pq.2.1 (s.screenH - pq.2.2)
          w s.screenW s.screenH color
  else []

/-- Renderer calls emitted by `draw_circle` (`pygame_like.py` lines
361–404), with `math.cos`, `math.sin`, `math.pi` taken as parameters
(`cosF`, `sinF`, `piq`; any IEEE-double behaviour is an instance).  On the
screen surface: the centre is converted to bottom-left origin
(`y = screen_h - center_y`, line 382); `width <= 0` emits one
`add_circle_screen` with 32 segments; otherwise the code builds
`segments + 1 = 33` points `pts[i] = (x + cos(angle_i)*radius,
y + sin(angle_i)*radius)` with `angle_i = i * (2*pi/32)` and connects
`pts[i]` to `pts[i+1]` for `i < 32` (expressed as `pts.zip pts.tail`),
thickness `max(1, width)`.  A no-op off the screen surface. -/
def drawCircleEvents (cosF sinF : ℚ → ℚ) (piq : ℚ) (s : RState)
    (surf : PySurface) (cin : ColorInput) (cx cy r width : ℚ) :
    List REvent :=
  let color := toVector4f (toColor cin)
  if isScreen s surf then
    if !s.brAvailable then []
    else
      let x := cx
      let y := s.screenH - cy
      if width ≤ 0 then
        [.appendCircle x y r s.screenW s.screenH color 32]
      else
        let angleStep := 2 * piq / 32
        let pts := (List.range 33).map fun i =>
          (x + cosF (i * angleStep) * r, y + sinF (i * angleStep) * r)
        let t := max 1 width
        (pts.zip pts.tail).map fun pq =>
          .appendLine pq.1.1 pq.1.2 pq.2.1 pq.2.2 t s.screenW s.screenH color
  else []

/-- Python-level exceptions the shim's own code could raise.  None of the
four draw functions contains a `raise` statement nor writes any global:
their bodies only construct values, compare against the screen surface, and
call into the external batch renderer.  Hence each is embedded as returning
`Except.ok` with the state unchanged and the emitted renderer calls. -/
inductive PyErr where
  | valueError : PyErr
  | runtimeError : PyErr
  deriving DecidableEq, Repr

/-- Embedding of `draw_rect` as a state transformer: no global writes, no raise. -/
def draw_rect (s : RState) (surf : PySurface) (cin : ColorInput)
    (rin : RectInput) (width : ℚ) : Except PyErr (RState × List REvent) :=
  .ok (s, drawRectEvents s surf cin rin width)

/-- Embedding of `draw_line` as a state transformer: no global writes, no raise. -/
def draw_line (s : RState) (surf : PySurface) (cin : ColorInput)
    (p0 p1 : ℚ × ℚ) (width : ℚ) : Except PyErr (RState × List REvent) :=
  .ok (s, drawLineEvents s surf cin p0 p1 width)

/-- Embedding of `draw_polygon` as a state transformer: no global writes, no raise. -/
def draw_polygon (s : RState) (surf : PySurface) (cin : ColorInput)
    (pts : List (ℚ × ℚ)) (width : ℚ) : Except PyErr (RState × List REvent) :=
  .ok (s, drawPolygonEvents s surf cin pts width)

/-- Embedding of `draw_circle` as a state transformer: no global writes, no raise. -/
def draw_circle (cosF sinF : ℚ → ℚ) (piq : ℚ) (s : RState)
    (surf : PySurface) (cin : ColorInput) (cx cy r width : ℚ) :
    Except PyErr (RState × List REvent) :=
  .ok (s, drawCircleEvents cosF sinF piq s surf cin cx cy r width)

/-! ## Real-arithmetic model of the circle-outline sampling

For the coordinate-geometry analysis of the circle outline
(`pygame_like.py` lines 386–401) the float computation is idealized over
`ℝ`.  `cosF`, `sinF`, `piR` are parameters so the definitions stay
executable as functions; the theorems instantiate them with `Real.cos`,
`Real.sin`, `Real.pi`. -/

/-- The `i`-th vertex computed by `draw_circle`'s outline loop
(lines 391–395): the *centre* is first converted to render space
(`x = center_x`, `y = screen_h - center_y`, lines 381–382) and the radial
offset `(cos(angle)*radius, sin(angle)*radius)` is then added to the
converted centre, with `angle = i * (2*pi/segments)`. -/
def codeCircleSample {K : Type} [Field K] (cosF sinF : K → K) (piR : K)
    (cx cy r hscr : K) (segments i : ℕ) : K × K :=
  let angle : K := (i : K) * (2 * piR / (segments : K))
  (cx + cosF angle * r, (hscr - cy) + sinF angle * r)

/-- Modelled from the spec: the sampling the spec describes for the circle
outline — sample the circle in *screen* space at angle `i * (2*pi/segments)`
and map each endpoint individually through the coordinate map
`(x, y) ↦ (x, h - y)`.  This is the refinement target the code is compared
against; it is not the code's computation. -/
def specCircleSample {K : Type} [Field K] (cosF sinF : K → K) (piR : K)
    (cx cy r hscr : K) (segments i : ℕ) : K × K :=
  let angle : K := (i : K) * (2 * piR / (segments : K))
  (cx + r * cosF angle, hscr - (cy + r * sinF angle))

/-- The endpoint pairs of the line appends emitted by the outline loop
(lines 398–401): the `i`-th emitted line connects vertex `i` to vertex
`i + 1`, for `i < segments` (the code materializes `pts[0..segments]` and
connects `pts[i]` to `pts[i+1]`; `pts[i] = codeCircleSample … i`). -/
def codeCircleSegs {K : Type} [Field K] (cosF sinF : K → K) (piR : K)
    (cx cy r hscr : K) (segments : ℕ) : List ((K × K) × (K × K)) :=
  (List.range segments).map fun i =>
    (codeCircleSample cosF sinF piR cx cy r hscr segments i,
     codeCircleSample cosF sinF piR cx cy r hscr segments (i + 1))

/-! ## Command sequences

The intended usage protocol of the shim: `init()`, one successful
`display_set_mode`, then any interleaving of draw calls and `display_flip`
calls (spec §4.3).  Draw commands carry their full Python argument lists. -/

/-- One user-level call after `display_set_mode`. -/
inductive Cmd where
  | flip : Cmd
  | rect (surf : PySurface) (cin : ColorInput) (rin : RectInput)
      (width : ℚ) : Cmd
  | line (surf : PySurface) (cin : ColorInput) (p0 p1 : ℚ × ℚ)
      (width : ℚ) : Cmd
  | poly (surf : PySurface) (cin : ColorInput) (pts : List (ℚ × ℚ))
      (width : ℚ) : Cmd
  | circle (cosF sinF : ℚ → ℚ) (piq : ℚ) (surf : PySurface)
      (cin : ColorInput) (cx cy r width : ℚ) : Cmd

/-- Execute one command: the state transition and the renderer calls it
makes.  Draw commands leave the state unchanged (the draw functions write
no globals). -/
def stepCmd (s : RState) : Cmd → RState × List REvent
  | .flip => display_flip s
  | .rect surf cin rin w => (s, drawRectEvents s surf cin rin w)
  | .line surf cin p0 p1 w => (s, drawLineEvents s surf cin p0 p1 w)
  | .poly surf cin pts w => (s, drawPolygonEvents s surf cin pts w)
  | .circle cosF sinF piq surf cin cx cy r w =>
      (s, drawCircleEvents cosF sinF piq s surf cin cx cy r w)

/-- Run a command list, returning the final state. -/
def execCmds (s : RState) : List Cmd → RState
  | [] => s
  | c :: cs => execCmds (stepCmd s c).1 cs

/-- The lifecycle invariant: the renderer-side open-batch count mirrors the
`_batch_started` flag — `1` when the flag is set, `0` when it is clear.  In
particular at most one batch is ever open. -/
def BatchInv (s : RState) : Prop :=
  (s.batchStarted = true → s.brOpen = 1) ∧
  (s.batchStarted = false → s.brOpen = 0)

/-- The steady state of the lifecycle controller (`FrameOpen+BatchOpen`):
window and batch renderer present, `_batch_started` set, one batch open.
Established by a successful `display_set_mode` and preserved by every draw
call and every `display_flip`. -/
def Steady (s : RState) : Prop :=
  s.windowOpen = true ∧ s.brAvailable = true ∧ s.batchStarted = true ∧
    s.brOpen = 1

/-- Concrete steady state with an 800×600 viewport, as produced by a
successful `display_set_mode((800, 600))` (used by witnesses). -/
def s800 : RState :=
  { windowOpen := true, brAvailable := true, batchStarted := true,
    brOpen := 1, screenSid := some 0, screenW := 800, screenH := 600 }

/-- The screen surface belonging to `s800`. -/
def surf0 : PySurface := ⟨0, 800, 600⟩

/-- An offscreen surface (identity distinct from the screen surface). -/
def surfOff : PySurface := ⟨1, 64, 64⟩

/-- The state after a successful `display_set_mode((640, 480))` in which
`get_batch_renderer()` returned `None`: no batch was started, none is
open. -/
def sNoBatch : RState := (display_set_mode initState 640 480 false).1

/-- The screen surface belonging to `sNoBatch`. -/
def surfScreen640 : PySurface := ⟨0, 640, 480⟩

/-- The two endpoints of a line append, if the event is one. -/
def lineEnds : REvent → Option ((ℚ × ℚ) × (ℚ × ℚ))
  | .appendLine x0 y0 x1 y1 _ _ _ _ => some ((x0, y0), (x1, y1))
  | _ => none

/-- All four components of a normalized colour lie in `[0, 1]`. -/
def inUnitColor (c : Col) : Prop :=
  0 ≤ c.1 ∧ c.1 ≤ 1 ∧ 0 ≤ c.2.1 ∧ c.2.1 ≤ 1 ∧
    0 ≤ c.2.2.1 ∧ c.2.2.1 ≤ 1 ∧ 0 ≤ c.2.2.2 ∧ c.2.2.2 ≤ 1

theorem batchInv_le_one {s : RState} (h : BatchInv s) : s.brOpen ≤ 1 := by
  rcases h with ⟨h1, h0⟩
  cases hb : s.batchStarted
  · exact (h0 hb) ▸ Nat.zero_le 1
  · exact (h1 hb) ▸ Nat.le_refl 1

theorem batchInv_flip {s : RState} (h : BatchInv s) :
    BatchInv (display_flip s).1 := by
  rcases h with ⟨h1, h0⟩
  unfold display_flip
  by_cases hw : s.windowOpen = true
  · simp only [hw, if_true]
    by_cases hba : s.brAvailable = true
    · cases hbs : s.batchStarted
      · simp [hba, hbs, BatchInv, h0 hbs]
      · simp [hba, hbs, BatchInv, h1 hbs]
    · have hba' : s.brAvailable = false := by
        revert hba; cases s.brAvailable <;> simp
      simp only [hba', BatchInv]
      simp
      exact ⟨h1, h0⟩
  · have hw' : s.windowOpen = false := by
      revert hw; cases s.windowOpen <;> simp
    simp only [hw', BatchInv]
    simp
    exact ⟨h1, h0⟩

theorem batchInv_step {s : RState} (c : Cmd) (h : BatchInv s) :
    BatchInv (stepCmd s c).1 := by
  cases c with
  | flip => exact batchInv_flip h
  | rect surf cin rin w => exact h
  | line surf cin p0 p1 w => exact h
  | poly surf cin pts w => exact h
  | circle cosF sinF piq surf cin cx cy r w => exact h

theorem batchInv_exec {s : RState} (cmds : List Cmd) (h : BatchInv s) :
    BatchInv (execCmds s cmds) := by
  induction cmds generalizing s with
  | nil => exact h
  | cons c cs ih => exact ih (batchInv_step c h)

theorem batchInv_set_mode (s : RState) (w h : ℚ) (brAvail : Bool)
    (h0 : s.brOpen = 0) (hb : s.batchStarted = false) :
    BatchInv (display_set_mode s w h brAvail).1 := by
  unfold display_set_mode
  cases brAvail
  · simp [BatchInv, h0, hb]
  · simp [BatchInv, h0]

theorem flip_state_steady {s : RState} (hw : s.windowOpen = true)
    (hba : s.brAvailable = true) (hbs : s.batchStarted = true)
    (h1 : s.brOpen = 1) : (display_flip s).1 = s := by
  obtain ⟨wo, ba, bs, bo, sid, sw, sh⟩ := s
  simp only at hw hba hbs h1
  subst hw hba hbs h1
  simp [display_flip]

theorem flip_events_steady {s : RState} (hw : s.windowOpen = true)
    (hba : s.brAvailable = true) (hbs : s.batchStarted = true) :
    (display_flip s).2 = [REvent.endBatch, REvent.flushBatch,
      REvent.endFrame, REvent.swapBuffers, REvent.beginFrame,
      REvent.beginBatch] := by
  unfold display_flip
  simp [hw, hba, hbs]

theorem steady_step {s : RState} (c : Cmd) (h : Steady s) :
    Steady (stepCmd s c).1 := by
  rcases h with ⟨hw, hba, hbs, h1⟩
  cases c with
  | flip =>
      show Steady (display_flip s).1
      rw [flip_state_steady hw hba hbs h1]
      exact ⟨hw, hba, hbs, h1⟩
  | rect surf cin rin w => exact ⟨hw, hba, hbs, h1⟩
  | line surf cin p0 p1 w => exact ⟨hw, hba, hbs, h1⟩
  | poly surf cin pts w => exact ⟨hw, hba, hbs, h1⟩
  | circle cosF sinF piq surf cin cx cy r w => exact ⟨hw, hba, hbs, h1⟩

theorem steady_exec {s : RState} (cmds : List Cmd) (h : Steady s) :
    Steady (execCmds s cmds) := by
  induction cmds generalizing s with
  | nil => exact h
  | cons c cs ih => exact ih (steady_step c h)

theorem steady_after_set_mode (w h : ℚ) :
    Steady (display_set_mode initState w h true).1 := by
  simp [display_set_mode, initState, Steady]

/-- Claim C1: for every call to `display_flip()` made after
`display_set_mode` has succeeded (any interleaving of draw calls and flips
in between), the renderer operations occur in the order end batch, flush
batch, end frame, swap buffers, begin new frame, begin new batch; the net
effect on the lifecycle state is the identity (still `FrameOpen+BatchOpen`),
and a flip with zero draw calls since the previous flip still performs
exactly one buffer swap. -/
theorem C1_flip_order (w h : ℚ) (cmds : List Cmd) :
    (display_flip (execCmds (display_set_mode initState w h true).1 cmds)).2
        = [REvent.endBatch, REvent.flushBatch, REvent.endFrame,
           REvent.swapBuffers, REvent.beginFrame, REvent.beginBatch] ∧
    (display_flip (execCmds (display_set_mode initState w h true).1 cmds)).1
        = execCmds (display_set_mode initState w h true).1 cmds ∧
    ((display_flip (execCmds (display_set_mode initState w h true).1
        cmds)).2.count REvent.swapBuffers) = 1 := by
  obtain ⟨hw, hba, hbs, h1⟩ := steady_exec cmds (steady_after_set_mode w h)
  refine ⟨flip_events_steady hw hba hbs, flip_state_steady hw hba hbs h1, ?_⟩
  rw [flip_events_steady hw hba hbs]
  decide

/-- Claim C6: in every state reachable by the intended call sequence (init,
then one `display_set_mode`, then any interleaving of draw calls and
`display_flip` calls) at most one batch is open; `display_set_mode` opens
the first batch, and `display_flip` always ends and flushes the currently
open batch before beginning a new one. -/
theorem C6_single_batch (w h : ℚ) (brAvail : Bool) (cmds : List Cmd) :
    (execCmds (display_set_mode initState w h brAvail).1 cmds).brOpen ≤ 1 ∧
    (display_set_mode initState w h true).2
        = [REvent.setViewport w h, REvent.beginFrame, REvent.beginBatch] ∧
    (∀ s : RState, s.windowOpen = true → s.brAvailable = true →
      s.batchStarted = true →
      (display_flip s).2 = [REvent.endBatch, REvent.flushBatch,
        REvent.endFrame, REvent.swapBuffers, REvent.beginFrame,
        REvent.beginBatch]) := by
  refine ⟨?_, by simp [display_set_mode], ?_⟩
  · exact batchInv_le_one
      (batchInv_exec cmds (batchInv_set_mode initState w h brAvail rfl rfl))
  · intro s hw hba hbs
    exact flip_events_steady hw hba hbs

/-- Witness for C6 at a concrete input: one flip after
`display_set_mode((800, 600))`, and the flip event order in the concrete
steady state `s800`. -/
theorem C6_witness :
    (execCmds (display_set_mode initState 800 600 true).1
        [Cmd.flip]).brOpen ≤ 1 ∧
    (display_flip s800).2 = [REvent.endBatch, REvent.flushBatch,
      REvent.endFrame, REvent.swapBuffers, REvent.beginFrame,
      REvent.beginBatch] :=
  ⟨(C6_single_batch 800 600 true [Cmd.flip]).1,
   (C6_single_batch 800 600 true [Cmd.flip]).2.2 s800 (by decide) (by decide)
     (by decide)⟩

/-- Claim C2: for every viewport and every rectangle, `draw_rect` with
`width <= 0` on the active screen surface (batch renderer present) emits
exactly one filled-rectangle append whose render-space origin is
`(x, screen_h - y - height)` and whose width and height are passed through
unchanged.  (The 800×600 / (100,50,200,80) scenario is the witness.) -/
theorem C2_filled_rect (s : RState) (surf : PySurface) (cin : ColorInput)
    (rin : RectInput) (width : ℚ) (hscr : isScreen s surf = true)
    (hba : s.brAvailable = true) (hwd : width ≤ 0) :
    drawRectEvents s surf cin rin width
      = [REvent.appendRect (toRect rin).x
           (s.screenH - (toRect rin).y - (toRect rin).height)
           (toRect rin).width (toRect rin).height s.screenW s.screenH
           (toVector4f (toColor cin))] := by
  unfold drawRectEvents
  simp [hscr, hba, hwd]

/-- Witness for C2: the spec scenario — viewport 800×600, rectangle
`(100, 50, 200, 80)`, filled → a single append with render-space origin
`(100, 470)` and size `(200, 80)`. -/
theorem C2_witness :
    drawRectEvents s800 surf0 (ColorInput.rgb3 255 0 0)
        (RectInput.tup 100 50 200 80) 0
      = [REvent.appendRect 100 470 200 80 800 600 (1, 0, 0, 1)] := by
  rw [C2_filled_rect s800 surf0 (ColorInput.rgb3 255 0 0)
    (RectInput.tup 100 50 200 80) 0 (by decide) (by decide) le_rfl]
  norm_num [s800, toRect, toColor, toVector4f, mkPyColor, clamp255]

/-- Claim C3: for every rectangle and every `width > 0`, `draw_rect` on the
active screen surface emits exactly four line appends tracing the
rectangle's four edges at the given thickness, and the endpoints of those
four lines, mapped back to screen space with the same viewport, reconstruct
the original rectangle's four corners exactly (hence within any epsilon,
in particular `1e-6`): top edge topleft→topright, bottom edge
bottomleft→bottomright, left edge bottomleft→topleft, right edge
bottomright→topright. -/
theorem C3_stroked_rect (s : RState) (surf : PySurface) (cin : ColorInput)
    (rin : RectInput) (width : ℚ) (hscr : isScreen s surf = true)
    (hba : s.brAvailable = true) (hwd : 0 < width) :
    drawRectEvents s surf cin rin width
      = [REvent.appendLine (toRect rin).x
           (s.screenH - (toRect rin).y - (toRect rin).height
             + (toRect rin).height)
           ((toRect rin).x + (toRect rin).width)
           (s.screenH - (toRect rin).y - (toRect rin).height
             + (toRect rin).height)
           width s.screenW s.screenH (toVector4f (toColor cin)),
         REvent.appendLine (toRect rin).x
           (s.screenH - (toRect rin).y - (toRect rin).height)
           ((toRect rin).x + (toRect rin).width)
           (s.screenH - (toRect rin).y - (toRect rin).height)
           width s.screenW s.screenH (toVector4f (toColor cin)),
         REvent.appendLine (toRect rin).x
           (s.screenH - (toRect rin).y - (toRect rin).height)
           (toRect rin).x
           (s.screenH - (toRect rin).y - (toRect rin).height
             + (toRect rin).height)
           width s.screenW s.screenH (toVector4f (toColor cin)),
         REvent.appendLine ((toRect rin).x + (toRect rin).width)
           (s.screenH - (toRect rin).y - (toRect rin).height)
           ((toRect rin).x + (toRect rin).width)
           (s.screenH - (toRect rin).y - (toRect rin).height
             + (toRect rin).height)
           width s.screenW s.screenH (toVector4f (toColor cin))] ∧
    (drawRectEvents s surf cin rin width).map
        (fun e => (lineEnds e).map fun pq =>
          (mapPt s.screenH pq.1, mapPt s.screenH pq.2))
      = [some (((toRect rin).x, (toRect rin).y),
               ((toRect rin).x + (toRect rin).width, (toRect rin).y)),
         some (((toRect rin).x, (toRect rin).y + (toRect rin).height),
               ((toRect rin).x + (toRect rin).width,
                (toRect rin).y + (toRect rin).height)),
         some (((toRect rin).x, (toRect rin).y + (toRect rin).height),
               ((toRect rin).x, (toRect rin).y)),
         some (((toRect rin).x + (toRect rin).width,
                (toRect rin).y + (toRect rin).height),
               ((toRect rin).x + (toRect rin).width, (toRect rin).y))] := by
  have hnle : ¬ width ≤ 0 := not_le.mpr hwd
  have h1 : drawRectEvents s surf cin rin width
      = [REvent.appendLine (toRect rin).x
           (s.screenH - (toRect rin).y - (toRect rin).height
             + (toRect rin).height)
           ((toRect rin).x + (toRect rin).width)
           (s.screenH - (toRect rin).y - (toRect rin).height
             + (toRect rin).height)
           width s.screenW s.screenH (toVector4f (toColor cin)),
         REvent.appendLine (toRect rin).x
           (s.screenH - (toRect rin).y - (toRect rin).height)
           ((toRect rin).x + (toRect rin).width)
           (s.screenH - (toRect rin).y - (toRect rin).height)
           width s.screenW s.screenH (toVector4f (toColor cin)),
         REvent.appendLine (toRect rin).x
           (s.screenH - (toRect rin).y - (toRect rin).height)
           (toRect rin).x
           (s.screenH - (toRect rin).y - (toRect rin).height
             + (toRect rin).height)
           width s.screenW s.screenH (toVector4f (toColor cin)),
         REvent.appendLine ((toRect rin).x + (toRect rin).width)
           (s.screenH - (toRect rin).y - (toRect rin).height)
           ((toRect rin).x + (toRect rin).width)
           (s.screenH - (toRect rin).y - (toRect rin).height
             + (toRect rin).height)
           width s.screenW s.screenH (toVector4f (toColor cin))] := by
    unfold drawRectEvents
    simp [hscr, hba, hnle]
  refine ⟨h1, ?_⟩
  rw [h1]
  simp [lineEnds, mapPt, Prod.ext_iff]
  ring_nf

/-- Witness for C3: viewport 800×600, rectangle `(100, 50, 200, 80)`,
stroke width 3 — four line appends whose endpoints map back to the corners
`(100,50)`, `(300,50)`, `(100,130)`, `(300,130)`. -/
theorem C3_witness :
    (drawRectEvents s800 surf0 (ColorInput.rgb3 255 0 0)
        (RectInput.tup 100 50 200 80) 3).map
        (fun e => (lineEnds e).map fun pq =>
          (mapPt s800.screenH pq.1, mapPt s800.screenH pq.2))
      = [some ((100, 50), (300, 50)),
         some ((100, 130), (300, 130)),
         some ((100, 130), (100, 50)),
         some ((300, 130), (300, 50))] := by
  rw [(C3_stroked_rect s800 surf0 (ColorInput.rgb3 255 0 0)
    (RectInput.tup 100 50 200 80) 3 (by decide) (by decide)
    (by norm_num)).2]
  norm_num [s800, toRect]

/-- Claim C5: for every viewport height `h` and point `(x, y)` with
`0 ≤ y ≤ h`, the screen→render coordinate map `(x, y) ↦ (x, h - y)` is
self-inverse: applying it twice returns the original point. -/
theorem C5_map_involutive (hscr : ℚ) (p : ℚ × ℚ) (h0 : 0 ≤ p.2)
    (h1 : p.2 ≤ hscr) : mapPt hscr (mapPt hscr p) = p := by
  simp [mapPt]

/-- Witness for C5: height 600, point `(100, 50)`. -/
theorem C5_witness : mapPt 600 (mapPt 600 (100, 50)) = (100, 50) :=
  C5_map_involutive 600 (100, 50) (by norm_num) (by norm_num)

theorem draws_offscreen_noop {s : RState} {surf : PySurface}
    (hns : isScreen s surf = false) (cin : ColorInput) (rin : RectInput)
    (p0 p1 : ℚ × ℚ) (pts : List (ℚ × ℚ)) (cosF sinF : ℚ → ℚ)
    (piq cx cy r w1 w2 w3 w4 : ℚ) :
    draw_rect s surf cin rin w1 = Except.ok (s, []) ∧
    draw_line s surf cin p0 p1 w2 = Except.ok (s, []) ∧
    draw_polygon s surf cin pts w3 = Except.ok (s, []) ∧
    draw_circle cosF sinF piq s surf cin cx cy r w4 = Except.ok (s, []) := by
  refine ⟨?_, ?_, ?_, ?_⟩ <;>
    simp [draw_rect, draw_line, draw_polygon, draw_circle, drawRectEvents,
      drawLineEvents, drawPolygonEvents, drawCircleEvents, hns, hasFillRect]

/-- Claim C7: for every draw operation (rect, circle, line, polygon) and
every surface argument that is not the active screen surface, the call is a
no-op: it performs no batch-renderer append (no renderer call at all),
raises no exception (`Except.ok`), and leaves all state unchanged (the
returned state is the input state; surfaces are immutable values and
`draw_rect` never reaches `surface.fill_rect`, an attribute `Surface` does
not define). -/
theorem C7_offscreen_noop (s : RState) (surf : PySurface) (cin : ColorInput)
    (rin : RectInput) (p0 p1 : ℚ × ℚ) (pts : List (ℚ × ℚ))
    (cosF sinF : ℚ → ℚ) (piq cx cy r w1 w2 w3 w4 : ℚ)
    (hns : isScreen s surf = false) :
    draw_rect s surf cin rin w1 = Except.ok (s, []) ∧
    draw_line s surf cin p0 p1 w2 = Except.ok (s, []) ∧
    draw_polygon s surf cin pts w3 = Except.ok (s, []) ∧
    draw_circle cosF sinF piq s surf cin cx cy r w4 = Except.ok (s, []) :=
  draws_offscreen_noop hns cin rin p0 p1 pts cosF sinF piq cx cy r w1 w2 w3 w4

/-- Witness for C7: the offscreen surface `surfOff` in the steady 800×600
state, with concrete arguments for all four draw operations. -/
theorem C7_witness :
    draw_rect s800 surfOff (ColorInput.rgb3 10 20 30)
        (RectInput.tup 1 2 3 4) 0 = Except.ok (s800, []) ∧
    draw_line s800 surfOff (ColorInput.rgb3 10 20 30) (0, 0) (5, 5) 1
      = Except.ok (s800, []) ∧
    draw_polygon s800 surfOff (ColorInput.rgb3 10 20 30) [(0, 0), (1, 1)] 0
      = Except.ok (s800, []) ∧
    draw_circle (fun _ => 1) (fun _ => 0) 3 s800 surfOff
        (ColorInput.rgb3 10 20 30) 4 4 2 2 = Except.ok (s800, []) :=
  C7_offscreen_noop s800 surfOff (ColorInput.rgb3 10 20 30)
    (RectInput.tup 1 2 3 4) (0, 0) (5, 5) [(0, 0), (1, 1)]
    (fun _ => 1) (fun _ => 0) 3 4 4 2 0 1 0 2 (by decide)

/-- Counterexample to claim C8: in the reachable state `sNoBatch` (a
successful `display_set_mode((640, 480))` during which
`get_batch_renderer()` returned `None`) no batch is open
(`_batch_started = False`, open-batch count 0), yet a `draw_rect` on the
active screen surface triggers no batch open and accumulates nothing: it
returns normally having emitted no renderer call at all (in particular no
`begin_batch` and no append). -/
theorem C8_counterexample :
    sNoBatch.batchStarted = false ∧ sNoBatch.brOpen = 0 ∧
    isScreen sNoBatch surfScreen640 = true ∧
    draw_rect sNoBatch surfScreen640 (ColorInput.rgb3 255 0 0)
        (RectInput.tup 10 10 20 20) 0 = Except.ok (sNoBatch, []) := by
  refine ⟨by decide, by decide, by decide, ?_⟩
  simp [draw_rect, drawRectEvents, sNoBatch, display_set_mode, initState,
    isScreen, surfScreen640]

/-- Claim C8 (amended): a primitive draw call never triggers the lifecycle
controller: no draw operation ever emits `begin_batch` (the translator
contains no lazy-open), so a primitive arriving while no batch is open is
appended into the renderer without opening one when the batch renderer is
present, and is a silent no-op when it is not; the call itself never raises
and never changes the lifecycle state. -/
theorem C8_no_lazy_open (s : RState) (surf : PySurface) (cin : ColorInput)
    (rin : RectInput) (p0 p1 : ℚ × ℚ) (pts : List (ℚ × ℚ))
    (cosF sinF : ℚ → ℚ) (piq cx cy r w1 w2 w3 w4 : ℚ) :
    (REvent.beginBatch ∉ drawRectEvents s surf cin rin w1 ∧
     REvent.beginBatch ∉ drawLineEvents s surf cin p0 p1 w2 ∧
     REvent.beginBatch ∉ drawPolygonEvents s surf cin pts w3 ∧
     REvent.beginBatch ∉
       drawCircleEvents cosF sinF piq s surf cin cx cy r w4) ∧
    draw_rect s surf cin rin w1
      = Except.ok (s, drawRectEvents s surf cin rin w1) := by
  refine ⟨⟨?_, ?_, ?_, ?_⟩, rfl⟩
  · unfold drawRectEvents
    split_ifs <;> simp
  · unfold drawLineEvents
    split_ifs <;> simp
  · unfold drawPolygonEvents
    split_ifs <;> simp
  · unfold drawCircleEvents
    split_ifs <;> simp

/-- Counterexample to claim C9: in the import-time state (before
`display_set_mode`; `_screen_surface` is `None`), a `draw_rect` on a
user-created surface does not raise any sequencing error — it returns
normally through the offscreen branch, performing no renderer call and
leaving the state unchanged. -/
theorem C9_counterexample :
    initState.screenSid = none ∧
    draw_rect initState surfOff (ColorInput.rgb4 0 0 255 255)
        (RectInput.tup 5 5 10 10) 0 = Except.ok (initState, []) := by
  refine ⟨rfl, ?_⟩
  simp [draw_rect, drawRectEvents, initState, isScreen, surfOff, hasFillRect]

/-- Claim C9 (amended): a draw primitive invoked before `display_set_mode`
does not raise; since `_screen_surface` is still `None`, the surface
comparison fails and the call takes the offscreen no-op path, performing no
renderer call and leaving all state unchanged. -/
theorem C9_pre_mode_no_raise (s : RState) (surf : PySurface)
    (cin : ColorInput) (rin : RectInput) (p0 p1 : ℚ × ℚ)
    (pts : List (ℚ × ℚ)) (cosF sinF : ℚ → ℚ) (piq cx cy r w1 w2 w3 w4 : ℚ)
    (hpre : s.screenSid = none) :
    draw_rect s surf cin rin w1 = Except.ok (s, []) ∧
    draw_line s surf cin p0 p1 w2 = Except.ok (s, []) ∧
    draw_polygon s surf cin pts w3 = Except.ok (s, []) ∧
    draw_circle cosF sinF piq s surf cin cx cy r w4 = Except.ok (s, []) := by
  have hns : isScreen s surf = false := by simp [isScreen, hpre]
  exact draws_offscreen_noop hns cin rin p0 p1 pts cosF sinF piq cx cy r
    w1 w2 w3 w4

/-- Witness for the amended C9 at a concrete input: all four draw
operations called in the import-time state. -/
theorem C9_witness :
    draw_rect initState surfOff (ColorInput.rgb3 9 9 9)
        (RectInput.tup 0 0 8 8) 2 = Except.ok (initState, []) ∧
    draw_line initState surfOff (ColorInput.rgb3 9 9 9) (1, 1) (2, 2) 1
      = Except.ok (initState, []) ∧
    draw_polygon initState surfOff (ColorInput.rgb3 9 9 9) [(0, 0)] 1
      = Except.ok (initState, []) ∧
    draw_circle (fun _ => 1) (fun _ => 0) 3 initState surfOff
        (ColorInput.rgb3 9 9 9) 5 5 3 1 = Except.ok (initState, []) :=
  C9_pre_mode_no_raise initState surfOff (ColorInput.rgb3 9 9 9)
    (RectInput.tup 0 0 8 8) (1, 1) (2, 2) [(0, 0)] (fun _ => 1)
    (fun _ => 0) 3 5 5 3 2 1 1 1 rfl

theorem clamp255_unit (v : ℤ) :
    0 ≤ ((clamp255 v : ℤ) : ℚ) / 255 ∧ ((clamp255 v : ℤ) : ℚ) / 255 ≤ 1 := by
  have h0 : (0 : ℤ) ≤ clamp255 v := le_max_left 0 _
  have h255 : clamp255 v ≤ 255 := max_le (by norm_num) (min_le_left _ _)
  constructor
  · apply div_nonneg _ (by norm_num)
    exact_mod_cast h0
  · rw [div_le_one (by norm_num)]
    exact_mod_cast h255

theorem mkPyColor_unit (r g b a : ℤ) :
    inUnitColor (toVector4f (mkPyColor r g b a)) := by
  obtain ⟨h1, h2⟩ := clamp255_unit r
  obtain ⟨h3, h4⟩ := clamp255_unit g
  obtain ⟨h5, h6⟩ := clamp255_unit b
  obtain ⟨h7, h8⟩ := clamp255_unit a
  simp only [inUnitColor, toVector4f, mkPyColor]
  exact ⟨h1, h2, h3, h4, h5, h6, h7, h8⟩

theorem rectEvents_color (s : RState) (surf : PySurface) (cin : ColorInput)
    (rin : RectInput) (w : ℚ) :
    ∀ e ∈ drawRectEvents s surf cin rin w, ∀ c, eventColor e = some c →
      c = toVector4f (toColor cin) := by
  intro e he c hc
  unfold drawRectEvents at he
  split_ifs at he <;> try simp_all [eventColor]
  rcases he with he | he | he | he <;> subst he <;> simp_all [eventColor]

theorem lineEvents_color (s : RState) (surf : PySurface) (cin : ColorInput)
    (p0 p1 : ℚ × ℚ) (w : ℚ) :
    ∀ e ∈ drawLineEvents s surf cin p0 p1 w, ∀ c, eventColor e = some c →
      c = toVector4f (toColor cin) := by
  intro e he c hc
  unfold drawLineEvents at he
  split_ifs at he <;> simp_all [eventColor]

theorem polyEvents_color (s : RState) (surf : PySurface) (cin : ColorInput)
    (pts : List (ℚ × ℚ)) (w : ℚ) :
    ∀ e ∈ drawPolygonEvents s surf cin pts w, ∀ c, eventColor e = some c →
      c = toVector4f (toColor cin) := by
  intro e he c hc
  unfold drawPolygonEvents at he
  split_ifs at he <;> try simp_all [eventColor, List.mem_map]
  all_goals
    obtain ⟨a, b, a1, b1, -, ha⟩ := he
    subst ha
    simp only [eventColor] at hc
    exact (Option.some.inj hc).symm

theorem circleEvents_color (cosF sinF : ℚ → ℚ) (piq : ℚ) (s : RState)
    (surf : PySurface) (cin : ColorInput) (cx cy r w : ℚ) :
    ∀ e ∈ drawCircleEvents cosF sinF piq s surf cin cx cy r w, ∀ c,
      eventColor e = some c → c = toVector4f (toColor cin) := by
  intro e he c hc
  unfold drawCircleEvents at he
  split_ifs at he <;> try simp_all [eventColor, List.mem_map]
  all_goals
    obtain ⟨a, b, a1, b1, -, ha⟩ := he
    subst ha
    simp only [eventColor] at hc
    exact (Option.some.inj hc).symm

/-- Claim C10: for every colour argument accepted by the draw operations
(Color instance with arbitrary integer components, 3-tuple, or 4-tuple),
the RGBA value actually passed to every batch-renderer append is
component-wise within `[0, 1]`: the `Color` constructor clamps each
component to `[0, 255]` and `to_vector4f` divides by 255, and every append
event emitted by any draw operation carries exactly that normalized
colour. -/
theorem C10_colors_normalized (cin : ColorInput) (s : RState)
    (surf : PySurface) (rin : RectInput) (p0 p1 : ℚ × ℚ)
    (pts : List (ℚ × ℚ)) (cosF sinF : ℚ → ℚ) (piq cx cy r w1 w2 w3 w4 : ℚ) :
    inUnitColor (toVector4f (toColor cin)) ∧
    (∀ e, (e ∈ drawRectEvents s surf cin rin w1 ∨
           e ∈ drawLineEvents s surf cin p0 p1 w2 ∨
           e ∈ drawPolygonEvents s surf cin pts w3 ∨
           e ∈ drawCircleEvents cosF sinF piq s surf cin cx cy r w4) →
      ∀ c, eventColor e = some c → inUnitColor c) := by
  have hunit : inUnitColor (toVector4f (toColor cin)) := by
    cases cin with
    | col r g b a => exact mkPyColor_unit r g b a
    | rgb3 r g b => exact mkPyColor_unit r g b 255
    | rgb4 r g b a => exact mkPyColor_unit r g b a
  refine ⟨hunit, ?_⟩
  rintro e (he | he | he | he) c hc
  · rw [rectEvents_color s surf cin rin w1 e he c hc]
    exact hunit
  · rw [lineEvents_color s surf cin p0 p1 w2 e he c hc]
    exact hunit
  · rw [polyEvents_color s surf cin pts w3 e he c hc]
    exact hunit
  · rw [circleEvents_color cosF sinF piq s surf cin cx cy r w4 e he c hc]
    exact hunit

/-- Witness for C10 at concrete inputs: a `Color(999, -4, 300, 77)` with
out-of-range components still normalizes into `[0, 1]`, and the colour on a
concrete filled-rect append (pure red) is in `[0, 1]`. -/
theorem C10_witness :
    inUnitColor (toVector4f (toColor (ColorInput.col 999 (-4) 300 77))) ∧
    inUnitColor ((1 : ℚ), (0 : ℚ), (0 : ℚ), (1 : ℚ)) := by
  constructor
  · exact (C10_colors_normalized (ColorInput.col 999 (-4) 300 77) s800 surf0
      (RectInput.tup 0 0 1 1) (0, 0) (1, 1) [] (fun _ => 1) (fun _ => 0) 3
      0 0 1 0 1 1 1).1
  · exact (C10_colors_normalized (ColorInput.rgb3 255 0 0) s800 surf0
      (RectInput.tup 100 50 200 80) (0, 0) (1, 1) [] (fun _ => 1)
      (fun _ => 0) 3 0 0 1 0 1 1 1).2
      (REvent.appendRect 100 470 200 80 800 600 (1, 0, 0, 1))
      (Or.inl (by norm_num [drawRectEvents, s800, surf0, isScreen, toRect,
        toColor, mkPyColor, clamp255, toVector4f]))
      (1, 0, 0, 1) (by simp [eventColor])

/-- Counterexample to claim C4: at viewport height 600, centre (400, 300),
radius 50, the vertex at index 8 (angle `8·2π/32 = π/2`) computed by the
code is `(400, (600-300) + 50·sin(π/2)) = (400, 350)` — the centre is
mapped and the radial offset added un-flipped — whereas the claim's
individually-mapped formula `(cx + r·cos θ, 600 - (cy + r·sin θ))` gives
`(400, 250)`. -/
theorem C4_counterexample :
    codeCircleSample Real.cos Real.sin Real.pi 400 300 50 600 32 8
      ≠ specCircleSample Real.cos Real.sin Real.pi 400 300 50 600 32 8 := by
  have ha : ((8 : ℕ) : ℝ) * (2 * Real.pi / ((32 : ℕ) : ℝ))
      = Real.pi / 2 := by
    push_cast
    ring
  simp only [codeCircleSample, specCircleSample, ha, Real.sin_pi_div_two,
    Real.cos_pi_div_two]
  intro h
  have h2 := congrArg Prod.snd h
  norm_num at h2

/-- Claim C4 (amended): on the active screen surface with the batch
renderer present and `width > 0`, `draw_circle` emits exactly 32 line
appends (the segment count is fixed at 32 in the code, not a parameter);
in the exact-arithmetic model the `i`-th append connects vertex `i` to
vertex `i + 1` at angles `i·2π/32`, including the wrap-around (vertex 32
coincides with vertex 0 exactly); each vertex is obtained by mapping the
*centre* to render space and adding the radial offset un-flipped —
`(cx + cos θᵢ·r, (h − cy) + sin θᵢ·r)` — not by mapping each sample point
individually as the claim stated. -/
theorem C4_circle_outline (cx cy r hscr : ℝ) :
    (codeCircleSegs Real.cos Real.sin Real.pi cx cy r hscr 32).length
      = 32 ∧
    (∀ i (hi : i < (codeCircleSegs Real.cos Real.sin Real.pi cx cy r hscr
        32).length),
      (codeCircleSegs Real.cos Real.sin Real.pi cx cy r hscr 32).get
          ⟨i, hi⟩
        = (codeCircleSample Real.cos Real.sin Real.pi cx cy r hscr 32 i,
           codeCircleSample Real.cos Real.sin Real.pi cx cy r hscr 32
             (i + 1))) ∧
    codeCircleSample Real.cos Real.sin Real.pi cx cy r hscr 32 32
      = codeCircleSample Real.cos Real.sin Real.pi cx cy r hscr 32 0 ∧
    (∀ (s : RState) (surf : PySurface) (cin : ColorInput)
       (cosFq sinFq : ℚ → ℚ) (piq cx' cy' r' w' : ℚ),
      isScreen s surf = true → s.brAvailable = true → 0 < w' →
      (drawCircleEvents cosFq sinFq piq s surf cin cx' cy' r' w').length
        = 32) := by
  refine ⟨by simp [codeCircleSegs], ?_, ?_, ?_⟩
  · intro i hi
    simp [codeCircleSegs]
  · have h32 : ((32 : ℕ) : ℝ) * (2 * Real.pi / ((32 : ℕ) : ℝ))
        = 2 * Real.pi := by
      push_cast
      ring
    have hz : ((0 : ℕ) : ℝ) * (2 * Real.pi / ((32 : ℕ) : ℝ)) = 0 := by
      push_cast
      ring
    simp only [codeCircleSample, h32, hz, Real.cos_two_pi, Real.sin_two_pi,
      Real.cos_zero, Real.sin_zero]
  · intro s surf cin cosFq sinFq piq cx' cy' r' w' hscn hba hw
    have hnle : ¬ w' ≤ 0 := not_le.mpr hw
    unfold drawCircleEvents
    simp only [hscn, hba, hnle, Bool.not_true, Bool.false_eq_true, if_false,
      if_true, ite_true, ite_false]
    rw [List.length_map, List.length_zip, List.length_tail]
    rfl

/-- Witness for the amended C4 at concrete inputs: the spec scenario circle
(centre (400, 300), radius 50, viewport height 600) — 32 line appends with
exact wrap-around — and a concrete screen-surface outline call in the
800×600 steady state emitting 32 line appends. -/
theorem C4_witness :
    (codeCircleSegs Real.cos Real.sin Real.pi 400 300 50 600 32).length
      = 32 ∧
    codeCircleSample Real.cos Real.sin Real.pi 400 300 50 600 32 32
      = codeCircleSample Real.cos Real.sin Real.pi 400 300 50 600 32 0 ∧
    (drawCircleEvents (fun _ => 1) (fun _ => 0) 3 s800 surf0
        (ColorInput.rgb3 255 0 0) 400 300 50 2).length = 32 :=
  ⟨(C4_circle_outline 400 300 50 600).1,
   (C4_circle_outline 400 300 50 600).2.2.1,
   (C4_circle_outline 400 300 50 600).2.2.2 s800 surf0
     (ColorInput.rgb3 255 0 0) (fun _ => 1) (fun _ => 0) 3 400 300 50 2
     (by decide) (by decide) (by norm_num)⟩
